import Mathlib

/-!
Verification of the go-buffer concurrency core (Kevinello/go-buffer).

We shallowly embed the buffer event loop (src/buffer.go), its cleanup
goroutine, the public facade (Put / Flush / Close), configuration
validation (src/config.go) and the sync ArrayContainer
(container/array_container.go) as executable Lean definitions, and prove
or refute the frozen claims about them.

Machine integers: Go `int` is modelled as `Int`; the int8 conversion
performed by `zapcore.Level(config.LogLevel)` is modelled explicitly by
`int8cast`.  Fallible Go calls return a pair of the mutated state and an
`Option` error.  Channels are FIFO lists; the unbuffered flush-signal
channel is a rendezvous slot; the error channel is a list of capacity 1,
and a send into a full slot by a loop whose application never drains the
channel blocks (modelled as `none`).
-/

namespace GoBuffer

/-- Embedding of the Container interface (src/container/container.go):
`Put` and `Flush` mutate the container state and may return an error,
`IsFull` observes, `Reset` discards contents. -/
structure ContainerModel (σ T E : Type) where
  put : σ → T → σ × Option E
  flush : σ → σ × Option E
  isFull : σ → Bool
  reset : σ → σ

/-- State of the sync-mode ArrayContainer (container/array_container.go).
`array` is the accumulation slice; `sink` is the ghost record of every
batch passed to the user flushBatch callback, in call order. -/
structure ArrayContainerState (T : Type) where
  array : List T
  sink : List (List T)
deriving DecidableEq, Repr

/-- ArrayContainer with flushAsync = false
(container/array_container.go): Put appends (never errors); Flush hands
the whole array to flushBatch and empties the array on success, leaving
it unchanged on error; IsFull is len(array) >= flushSize; Reset empties
the array. -/
def arrayContainer {T E : Type} (flushSize : Nat) (flushBatch : List T → Option E) :
    ContainerModel (ArrayContainerState T) T E where
  put s d := ({ s with array := s.array ++ [d] }, none)
  flush s :=
    match flushBatch s.array with
    | some e => ({ s with sink := s.sink ++ [s.array] }, some e)
    | none => ({ array := [], sink := s.sink ++ [s.array] }, none)
  isFull s := flushSize ≤ s.array.length
  reset s := { s with array := [] }

/-- Loop-owned mutable state shared by run and cleanup: the container,
the contents of the capacity-1 error channel, and whether the auto-flush
ticker is armed. -/
structure CoreState (σ E : Type) where
  cont : σ
  errSlot : List E
  tickerArmed : Bool
deriving DecidableEq, Repr

/-- Observable actions performed by the buffer code, in execution order:
container calls, error-channel sends, the done signal of a synchronous
manual flush, acceptance of a manual flush request at the unbuffered
channel rendezvous, ticker operations, and the spawning of the detached
goroutine used by the asynchronous auto-flush policy. -/
inductive Act (T E : Type)
  | putCall (d : T)
  | flushCall
  | spawnFlushWork
  | resetCall
  | errSend (e : E)
  | doneSignal
  | acceptReq (async : Bool)
  | tickerStop
  | tickerArm
deriving DecidableEq, Repr

/-- Send on the error channel (`buffer.errChan <- err`).  The channel
has capacity 1 (src/buffer.go line 66); under an application that never
drains it, a send succeeds exactly when the slot is free, and blocks the
sender forever otherwise (`none`). -/
def sendErr {σ E : Type} (core : CoreState σ E) (e : E) : Option (CoreState σ E) :=
  if core.errSlot.length < 1 then some { core with errSlot := core.errSlot ++ [e] } else none

/-- The flush-with-recovery block shared textually by the timer branch,
the capacity branch and the manual-flush branch of src/buffer.go
(lines 168-173, 186-190, 252-256): call container.Flush; on error, send
the error on the error channel and then Reset the container. -/
def flushAndRecover {σ T E : Type} (M : ContainerModel σ T E) (core : CoreState σ E) :
    Option (CoreState σ E × List (Act T E)) :=
  match M.flush core.cont with
  | (c, some e) =>
    match sendErr { core with cont := c } e with
    | none => none
    | some core2 => some ({ core2 with cont := M.reset c }, [Act.flushCall, Act.errSend e, Act.resetCall])
  | (c, none) => some ({ core with cont := c }, [Act.flushCall])

/-- buffer.putAndCheck (src/buffer.go lines 242-268): container.Put the
item; on a Put error, send the error on the error channel (no Reset is
performed on this branch); then, if the container reports IsFull, stop
the ticker, flush (inline under SyncAutoFlush, otherwise spawn a
goroutine), and unconditionally re-arm the ticker. -/
def putAndCheckStep {σ T E : Type} (M : ContainerModel σ T E) (syncAutoFlush : Bool)
    (core : CoreState σ E) (d : T) : Option (CoreState σ E × List (Act T E)) :=
  match
    (match M.put core.cont d with
     | (c1, some e) =>
       (sendErr { core with cont := c1 } e).map (fun k => (k, [Act.putCall d, Act.errSend e]))
     | (c1, none) => some ({ core with cont := c1 }, [Act.putCall d]))
  with
  | none => none
  | some (core1, acts1) =>
    if M.isFull core1.cont then
      match
        (if syncAutoFlush then flushAndRecover M { core1 with tickerArmed := false }
         else some ({ core1 with tickerArmed := false }, [Act.spawnFlushWork]))
      with
      | none => none
      | some (core3, acts2) =>
        some ({ core3 with tickerArmed := true }, acts1 ++ [Act.tickerStop] ++ acts2 ++ [Act.tickerArm])
    else some (core1, acts1)

/-- The manual-flush branch of the run loop (src/buffer.go lines
184-194): flush with recovery, then, for a synchronous request only,
send the done signal that unblocks the waiting Flush caller. -/
def manualFlushStep {σ T E : Type} (M : ContainerModel σ T E) (core : CoreState σ E)
    (async : Bool) : Option (CoreState σ E × List (Act T E)) :=
  match flushAndRecover M core with
  | none => none
  | some (core1, acts) => some (core1, acts ++ if async then [] else [Act.doneSignal])

/-- The timer branch of the run loop (src/buffer.go lines 164-183):
stop the ticker, flush (inline under SyncAutoFlush, otherwise spawn a
goroutine), then re-arm the ticker. -/
def tickStep {σ T E : Type} (M : ContainerModel σ T E) (syncAutoFlush : Bool)
    (core : CoreState σ E) : Option (CoreState σ E × List (Act T E)) :=
  match
    (if syncAutoFlush then flushAndRecover M { core with tickerArmed := false }
     else some ({ core with tickerArmed := false }, [Act.spawnFlushWork]))
  with
  | none => none
  | some (core2, acts) =>
    some ({ core2 with tickerArmed := true }, [Act.tickerStop] ++ acts ++ [Act.tickerArm])

/-- An event observed by the run loop's select (src/buffer.go lines
155-196): context cancellation, a data item, a ticker tick, or a manual
flush request. -/
inductive LoopEvent (T : Type)
  | ctxDone
  | data (d : T)
  | tick
  | flushReq (async : Bool)
deriving DecidableEq, Repr

/-- State of the run loop: the shared core plus whether the loop has
returned. -/
structure LoopState (σ E : Type) where
  core : CoreState σ E
  stopped : Bool
deriving DecidableEq, Repr

/-- Loop state at the top of run (src/buffer.go lines 143-152): fresh
container, empty error slot, and the ticker armed unless
DisableAutoFlush immediately stopped it. -/
def initLoopState {σ E : Type} (c0 : σ) (disableAutoFlush : Bool) : LoopState σ E :=
  { core := { cont := c0, errSlot := [], tickerArmed := !disableAutoFlush }, stopped := false }

/-- Whether an event can be observed by the loop: a tick can only fire
while the ticker is armed, and a returned loop observes nothing. -/
def loopEnabled {σ E T : Type} (s : LoopState σ E) : LoopEvent T → Bool
  | .tick => !s.stopped && s.core.tickerArmed
  | _ => !s.stopped

/-- One iteration of the run loop on an observed event (src/buffer.go
lines 155-196).  `none` means the event was not observable or the loop
blocked forever on a full, never-drained error channel. -/
def runStepE {σ T E : Type} (M : ContainerModel σ T E) (syncAutoFlush : Bool)
    (s : LoopState σ E) (ev : LoopEvent T) : Option (LoopState σ E × List (Act T E)) :=
  if loopEnabled s ev then
    match ev with
    | .ctxDone => some ({ s with stopped := true }, [])
    | .data d => (putAndCheckStep M syncAutoFlush s.core d).map (fun p => ({ s with core := p.1 }, p.2))
    | .tick => (tickStep M syncAutoFlush s.core).map (fun p => ({ s with core := p.1 }, p.2))
    | .flushReq a => (manualFlushStep M s.core a).map (fun p => ({ s with core := p.1 }, p.2))
  else none

/-- Run the loop over a sequence of observed events, logging the actions
each event produced. -/
def runTraceLog {σ T E : Type} (M : ContainerModel σ T E) (syncAutoFlush : Bool) :
    LoopState σ E → List (LoopEvent T) →
    Option (LoopState σ E × List (LoopEvent T × List (Act T E)))
  | s, [] => some (s, [])
  | s, ev :: evs =>
    match runStepE M syncAutoFlush s ev with
    | none => none
    | some (s1, acts) =>
      match runTraceLog M syncAutoFlush s1 evs with
      | none => none
      | some (s2, log) => some (s2, (ev, acts) :: log)

/-- Container state after putting a list of items in order. -/
def foldPuts {σ T E : Type} (M : ContainerModel σ T E) (c : σ) (ds : List T) : σ :=
  ds.foldl (fun a d => (M.put a d).1) c

/-- Which goroutine performed an action: the run loop or the cleanup
goroutine. -/
inductive ThreadTag
  | runT
  | cleanT
deriving DecidableEq, Repr

/-- Program counter of the run goroutine: at the select; holding a
received item before putAndCheck; holding an accepted manual flush
request before executing it; or returned. -/
inductive RunPC (T : Type)
  | sel
  | handle (d : T)
  | mflush (async : Bool)
  | stopped
deriving DecidableEq, Repr

/-- Program counter of the cleanup goroutine (src/buffer.go lines
199-218): blocked on ctx.Done; at the drain select; holding a drained
item before putAndCheck; or terminated. -/
inductive CleanPC (T : Type)
  | wait
  | drain
  | chandle (d : T)
  | terminated
deriving DecidableEq, Repr

/-- Global state of the interleaving machine: the run and cleanup
goroutines, the lifecycle context, the bounded FIFO data channel, the
rendezvous slot of the unbuffered flush-signal channel, the shared core,
and the log of container/channel actions tagged by performing thread. -/
structure Sys (σ T E : Type) where
  runPc : RunPC T
  cleanPc : CleanPC T
  ctxDone : Bool
  dataChan : List T
  dataClosed : Bool
  flushPending : Option Bool
  core : CoreState σ E
  log : List (ThreadTag × Act T E)
deriving DecidableEq, Repr

/-- State right after NewBuffer started both goroutines. -/
def initSys {σ T E : Type} (c0 : σ) (disableAutoFlush : Bool) : Sys σ T E :=
  { runPc := .sel, cleanPc := .wait, ctxDone := false, dataChan := [], dataClosed := false,
    flushPending := none,
    core := { cont := c0, errSlot := [], tickerArmed := !disableAutoFlush }, log := [] }

/-- Scheduling labels: environment actions (a Put caller enqueueing, a
Flush caller reaching the rendezvous, Close cancelling the context) and
the atomic steps of the two goroutines. -/
inductive SysLabel (T : Type)
  | envPut (d : T)
  | envFlushReq (async : Bool)
  | envClose
  | runSelData
  | runSelFlush
  | runSelDone
  | runPutStep
  | runFlushStep
  | cleanWake
  | cleanSelData
  | cleanPutStep
  | cleanFinish
deriving DecidableEq, Repr

/-- One interleaved step of the system.  Selects with several ready
cases choose arbitrarily (Go select), so runSelData is enabled even
after cancellation; a channel receive and the subsequent putAndCheck are
distinct steps, as in the code. -/
def sysStep {σ T E : Type} (M : ContainerModel σ T E) (syncAutoFlush : Bool) (chanCap : Nat)
    (s : Sys σ T E) : SysLabel T → Option (Sys σ T E)
  | .envPut d =>
    if !s.ctxDone && decide (s.dataChan.length < chanCap) && !s.dataClosed then
      some { s with dataChan := s.dataChan ++ [d] }
    else none
  | .envFlushReq a =>
    if !s.ctxDone && s.flushPending.isNone then some { s with flushPending := some a } else none
  | .envClose => if !s.ctxDone then some { s with ctxDone := true } else none
  | .runSelData =>
    match s.runPc, s.dataChan with
    | .sel, d :: rest => some { s with runPc := .handle d, dataChan := rest }
    | _, _ => none
  | .runSelFlush =>
    match s.runPc, s.flushPending with
    | .sel, some a =>
      some { s with runPc := .mflush a, flushPending := none,
                    log := s.log ++ [(.runT, .acceptReq a)] }
    | _, _ => none
  | .runSelDone =>
    match s.runPc, s.ctxDone with
    | .sel, true => some { s with runPc := .stopped }
    | _, _ => none
  | .runPutStep =>
    match s.runPc with
    | .handle d =>
      (putAndCheckStep M syncAutoFlush s.core d).map (fun p =>
        { s with runPc := .sel, core := p.1, log := s.log ++ p.2.map (fun a => (.runT, a)) })
    | _ => none
  | .runFlushStep =>
    match s.runPc with
    | .mflush a =>
      (manualFlushStep M s.core a).map (fun p =>
        { s with runPc := .sel, core := p.1, log := s.log ++ p.2.map (fun b => (.runT, b)) })
    | _ => none
  | .cleanWake =>
    match s.cleanPc, s.ctxDone with
    | .wait, true => some { s with cleanPc := .drain }
    | _, _ => none
  | .cleanSelData =>
    match s.cleanPc, s.dataChan with
    | .drain, d :: rest => some { s with cleanPc := .chandle d, dataChan := rest }
    | _, _ => none
  | .cleanPutStep =>
    match s.cleanPc with
    | .chandle d =>
      (putAndCheckStep M syncAutoFlush s.core d).map (fun p =>
        { s with cleanPc := .drain, core := p.1, log := s.log ++ p.2.map (fun a => (.cleanT, a)) })
    | _ => none
  | .cleanFinish =>
    match s.cleanPc, s.dataChan with
    | .drain, [] =>
      some { s with cleanPc := .terminated, dataClosed := true,
                    core := { s.core with cont := (M.flush s.core.cont).1 },
                    log := s.log ++ [(.cleanT, .flushCall)] }
    | _, _ => none

/-- Execute a schedule of labels from a state; `none` if some label is
not enabled (or a goroutine blocked on the error channel). -/
def sysExec {σ T E : Type} (M : ContainerModel σ T E) (syncAutoFlush : Bool) (chanCap : Nat) :
    Sys σ T E → List (SysLabel T) → Option (Sys σ T E)
  | s, [] => some s
  | s, l :: ls =>
    match sysStep M syncAutoFlush chanCap s l with
    | none => none
    | some s1 => sysExec M syncAutoFlush chanCap s1 ls

/-- The cleanup drain (src/buffer.go lines 203-217) once no further
senders exist: putAndCheck each item still in the data channel in FIFO
order, then perform one final container.Flush whose error is only
logged (no error-channel send, no Reset), and terminate. -/
def cleanupExec {σ T E : Type} (M : ContainerModel σ T E) (syncAutoFlush : Bool) :
    CoreState σ E → List T → Option (CoreState σ E × List (Act T E))
  | core, [] => some ({ core with cont := (M.flush core.cont).1 }, [Act.flushCall])
  | core, d :: rest =>
    match putAndCheckStep M syncAutoFlush core d with
    | none => none
    | some (core1, acts) =>
      match cleanupExec M syncAutoFlush core1 rest with
      | none => none
      | some (core2, acts2) => some (core2, acts ++ acts2)

/-- The only sentinel error of the facade (src/error.go): ErrClosed. -/
inductive GoError
  | errClosed
deriving DecidableEq, Repr

/-- Lifecycle-context state of a buffer instance.  NewBuffer derives its
context from the caller's via WithCancel (src/buffer.go line 58), so it
is done once the parent is cancelled or buffer.cancel was called. -/
structure FacadeState where
  parentCancelled : Bool
  selfCancelled : Bool
deriving DecidableEq, Repr

/-- Whether buffer.context.Done() is closed. -/
def ctxDoneF (s : FacadeState) : Bool := s.parentCancelled || s.selfCancelled

/-- buffer.closed (src/buffer.go lines 226-233): the non-blocking select
on the lifecycle context. -/
def closedCheck (s : FacadeState) : Bool := ctxDoneF s

/-- A facade call made by the application. -/
inductive BufOp
  | putOp
  | flushOp (async : Bool)
  | closeOp
deriving DecidableEq, Repr

/-- The ErrClosed gate of Put, Flush and Close (src/buffer.go lines
84-135): each returns ErrClosed when closed() holds; Close additionally
cancels the lifecycle context on success.  The enqueue/rendezvous
performed by a successful Put or Flush is modelled by Sys. -/
def facadeStep (s : FacadeState) : BufOp → FacadeState × Option GoError
  | .putOp => if closedCheck s then (s, some .errClosed) else (s, none)
  | .flushOp _ => if closedCheck s then (s, some .errClosed) else (s, none)
  | .closeOp =>
    if closedCheck s then (s, some .errClosed)
    else ({ s with selfCancelled := true }, none)

/-- Apply a sequence of facade calls, collecting each call's returned
error. -/
def facadeRun : FacadeState → List BufOp → FacadeState × List (Option GoError)
  | s, [] => (s, [])
  | s, op :: ops =>
    let p := facadeStep s op
    let q := facadeRun p.1 ops
    (q.1, p.2 :: q.2)

/-- Config (src/config.go lines 19-28), with time.Duration in
nanoseconds and the nil-ness of the Logger field made explicit. -/
structure GoConfig where
  id : String
  chanBufSize : Int
  disableAutoFlush : Bool
  flushInterval : Int
  syncAutoFlush : Bool
  hasLogger : Bool
  logLevel : Int
deriving DecidableEq, Repr

/-- Go conversion int -> int8 (two's complement truncation), performed
by zapcore.Level(config.LogLevel) since zapcore.Level is an int8. -/
def int8cast (n : Int) : Int :=
  let r := n % 256
  if r < 128 then r else r - 256

/-- Config.Validate (src/config.go lines 36-64): default the ID to a
fresh UUID string, ChanBufSize to 100 and FlushInterval to 15s; when no
Logger was supplied, build one from LogLevel after converting it to an
int8 zapcore.Level, failing when that level lies outside
[DebugLevel, FatalLevel] = [-1, 5]. -/
def validateConfig (uuid : String) (c : GoConfig) : Option GoConfig :=
  let c1 := if c.id = "" then { c with id := uuid } else c
  let c2 := if c1.chanBufSize = 0 then { c1 with chanBufSize := 100 } else c1
  let c3 := if c2.flushInterval = 0 then { c2 with flushInterval := 15 * 1000000000 } else c2
  if c3.hasLogger then some c3
  else
    let level := int8cast c3.logLevel
    if -1 ≤ level ∧ level ≤ 5 then some { c3 with hasLogger := true } else none

/-- What NewBuffer allocates when validation succeeds (src/buffer.go
lines 54-76): the validated config, a data channel of capacity
ChanBufSize and an error channel of capacity 1. -/
structure BufferInit where
  config : GoConfig
  dataChanCap : Int
  errChanCap : Nat
deriving DecidableEq, Repr

/-- NewBuffer (src/buffer.go lines 54-76): fail exactly when
Config.Validate fails, otherwise return the allocated buffer. -/
def newBuffer (uuid : String) (c : GoConfig) : Option BufferInit :=
  match validateConfig uuid c with
  | none => none
  | some v => some { config := v, dataChanCap := v.chanBufSize, errChanCap := 1 }

/-- A flushBatch callback that always succeeds. -/
def natBatchOk : List Nat → Option Unit := fun _ => none

/-- Sync ArrayContainer of flush size 10 over Nat, as in the repo's own
TestBuffer scenario. -/
def arr10 : ContainerModel (ArrayContainerState Nat) Nat Unit :=
  arrayContainer 10 natBatchOk

/-- Sync ArrayContainer of flush size 1 over Nat. -/
def arr1 : ContainerModel (ArrayContainerState Nat) Nat Unit :=
  arrayContainer 1 natBatchOk

/-- Empty ArrayContainer state. -/
def arrInit : ArrayContainerState Nat := { array := [], sink := [] }

/-- A container whose Put always fails with error code 7. -/
def contPutErr : ContainerModel Unit Nat Nat where
  put _ _ := ((), some 7)
  flush _ := ((), none)
  isFull _ := false
  reset s := s

/-- A container whose Flush always fails with error code 5. -/
def contFlushErr : ContainerModel Unit Nat Nat where
  put _ _ := ((), none)
  flush _ := ((), some 5)
  isFull _ := false
  reset s := s

/-- An error-free list container that never reports full. -/
def contNoFull : ContainerModel (List Nat) Nat Nat where
  put c d := (c ++ [d], none)
  flush _ := ([], none)
  isFull _ := false
  reset _ := []

/-- A schedule for Put 1..8, Close, then: run's select wins the race for
item 1 (Go select chooses arbitrarily among ready cases, and the context
Done case has no priority), cleanup wakes, drains items 2..8, sees an
empty channel and performs the final flush, terminating — all before the
run goroutine executes its pending putAndCheck. -/
def c1LabelsA : List (SysLabel Nat) :=
  [.envPut 1, .envPut 2, .envPut 3, .envPut 4, .envPut 5, .envPut 6, .envPut 7, .envPut 8,
   .envClose, .runSelData, .cleanWake,
   .cleanSelData, .cleanPutStep, .cleanSelData, .cleanPutStep, .cleanSelData, .cleanPutStep,
   .cleanSelData, .cleanPutStep, .cleanSelData, .cleanPutStep, .cleanSelData, .cleanPutStep,
   .cleanSelData, .cleanPutStep, .cleanFinish]

/-- A schedule in which, after Close, the run goroutine receives item 1
while the cleanup goroutine drains item 2, final-flushes and terminates,
and only then does the run goroutine call container.Put. -/
def c9Labels : List (SysLabel Nat) :=
  [.envPut 1, .envPut 2, .envClose, .runSelData, .cleanWake, .cleanSelData, .cleanPutStep,
   .cleanFinish, .runPutStep]

/-- A schedule in which one Put completes (item 1 is in the channel), a
synchronous Flush is then issued, and the loop's select services the
flush-signal channel before the data channel. -/
def c5Labels : List (SysLabel Nat) :=
  [.envPut 1, .envFlushReq false, .runSelFlush, .runFlushStep, .runSelData, .runPutStep]

theorem sendErr_empty {σ E : Type} (core : CoreState σ E) (e : E) (h : core.errSlot = []) :
    sendErr core e = some { core with errSlot := [e] } := by
  simp [sendErr, h]

theorem sendErr_some_len {σ E : Type} {core k : CoreState σ E} {e : E}
    (h : sendErr core e = some k) : k.errSlot.length = 1 := by
  unfold sendErr at h
  split at h
  · rename_i hlt
    injection h with h2
    subst h2
    simp only [List.length_append, List.length_cons, List.length_nil]
    omega
  · exact absurd h (by simp)

theorem flushAndRecover_ok {σ T E : Type} (M : ContainerModel σ T E) (core : CoreState σ E)
    (h : (M.flush core.cont).2 = none) :
    flushAndRecover M core = some ({ core with cont := (M.flush core.cont).1 }, [Act.flushCall]) := by
  unfold flushAndRecover
  rcases hf : M.flush core.cont with ⟨c, e⟩
  rw [hf] at h
  simp only at h
  subst h
  rfl

theorem flushAndRecover_err {σ T E : Type} (M : ContainerModel σ T E) (core : CoreState σ E)
    (c : σ) (e : E) (hf : M.flush core.cont = (c, some e)) (hslot : core.errSlot = []) :
    flushAndRecover M core
      = some ({ core with cont := M.reset c, errSlot := [e] },
              [Act.flushCall, Act.errSend e, Act.resetCall]) := by
  obtain ⟨cc, ce, ct⟩ := core
  dsimp only at hf hslot ⊢
  subst hslot
  unfold flushAndRecover
  rw [hf]
  simp [sendErr]

theorem flushAndRecover_errSlot {σ T E : Type} {M : ContainerModel σ T E}
    {core k : CoreState σ E} {acts : List (Act T E)}
    (h : flushAndRecover M core = some (k, acts)) :
    k.errSlot = core.errSlot ∨ k.errSlot.length = 1 := by
  unfold flushAndRecover at h
  split at h
  · rename_i c e
    split at h
    · cases h
    · rename_i core2 hs
      simp only [Option.some.injEq, Prod.mk.injEq] at h
      rw [← h.1]
      exact Or.inr (by simpa using sendErr_some_len hs)
  · rename_i c
    simp only [Option.some.injEq, Prod.mk.injEq] at h
    rw [← h.1]
    exact Or.inl rfl

theorem putAndCheckStep_ok {σ T E : Type} (M : ContainerModel σ T E) (sync : Bool)
    (core : CoreState σ E) (d : T) (c1 : σ) (hput : M.put core.cont d = (c1, none))
    (hfull : M.isFull c1 = false) :
    putAndCheckStep M sync core d = some ({ core with cont := c1 }, [Act.putCall d]) := by
  obtain ⟨cc, ce, ct⟩ := core
  dsimp only at hput ⊢
  unfold putAndCheckStep
  rw [hput]
  simp [hfull]

theorem putAndCheckStep_puterr {σ T E : Type} (M : ContainerModel σ T E) (sync : Bool)
    (core : CoreState σ E) (d : T) (c1 : σ) (e : E)
    (hput : M.put core.cont d = (c1, some e)) (hslot : core.errSlot = [])
    (hfull : M.isFull c1 = false) :
    putAndCheckStep M sync core d
      = some ({ core with cont := c1, errSlot := [e] }, [Act.putCall d, Act.errSend e]) := by
  obtain ⟨cc, ce, ct⟩ := core
  dsimp only at hput hslot ⊢
  subst hslot
  unfold putAndCheckStep
  rw [hput]
  simp [sendErr, hfull]

theorem putAndCheckStep_full_sync_err {σ T E : Type} (M : ContainerModel σ T E)
    (core : CoreState σ E) (d : T) (c1 c2 : σ) (e : E)
    (hput : M.put core.cont d = (c1, none)) (hslot : core.errSlot = [])
    (hfull : M.isFull c1 = true) (hflush : M.flush c1 = (c2, some e)) :
    putAndCheckStep M true core d
      = some ({ core with cont := M.reset c2, errSlot := [e], tickerArmed := true },
              [Act.putCall d, Act.tickerStop, Act.flushCall, Act.errSend e,
               Act.resetCall, Act.tickerArm]) := by
  obtain ⟨cc, ce, ct⟩ := core
  dsimp only at hput hslot ⊢
  subst hslot
  unfold putAndCheckStep
  rw [hput]
  have hfr := flushAndRecover_err M { cont := c1, errSlot := [], tickerArmed := false } c2 e
    (by simpa using hflush) rfl
  simp [hfull, hfr]

theorem putAndCheckStep_errSlot {σ T E : Type} {M : ContainerModel σ T E} {sync : Bool}
    {core k : CoreState σ E} {d : T} {acts : List (Act T E)}
    (h : putAndCheckStep M sync core d = some (k, acts)) :
    k.errSlot = core.errSlot ∨ k.errSlot.length = 1 := by
  unfold putAndCheckStep at h
  split at h
  · cases h
  · rename_i core1 acts1 hafter
    have hcore1 : core1.errSlot = core.errSlot ∨ core1.errSlot.length = 1 := by
      split at hafter
      · rename_i c1 e heq
        rcases hs : sendErr { core with cont := c1 } e with _ | k2
        · rw [hs] at hafter
          cases hafter
        · rw [hs] at hafter
          simp only [Option.map_some', Option.some.injEq, Prod.mk.injEq] at hafter
          rw [← hafter.1]
          exact Or.inr (sendErr_some_len hs)
      · rename_i c1
        simp only [Option.some.injEq, Prod.mk.injEq] at hafter
        rw [← hafter.1]
        exact Or.inl rfl
    split at h
    · split at h
      · cases h
      · rename_i core3 acts2 hpart
        have hcore3 : core3.errSlot = core1.errSlot ∨ core3.errSlot.length = 1 := by
          split at hpart
          · rcases flushAndRecover_errSlot hpart with h1 | h1
            · exact Or.inl h1
            · exact Or.inr h1
          · simp only [Option.some.injEq, Prod.mk.injEq] at hpart
            rw [← hpart.1]
            exact Or.inl rfl
        simp only [Option.some.injEq, Prod.mk.injEq] at h
        rw [← h.1]
        rcases hcore3 with h3 | h3
        · rcases hcore1 with h1 | h1
          · exact Or.inl (by simp [h3, h1])
          · exact Or.inr (by simp [h3, h1])
        · exact Or.inr (by simp [h3])
    · simp only [Option.some.injEq, Prod.mk.injEq] at h
      rw [← h.1]
      exact hcore1

theorem putAndCheckStep_full_sync_ok {σ T E : Type} (M : ContainerModel σ T E)
    (core : CoreState σ E) (d : T) (c1 : σ) (hput : M.put core.cont d = (c1, none))
    (hfull : M.isFull c1 = true) (hflush : (M.flush c1).2 = none) :
    putAndCheckStep M true core d
      = some ({ core with cont := (M.flush c1).1, tickerArmed := true },
              [Act.putCall d, Act.tickerStop, Act.flushCall, Act.tickerArm]) := by
  obtain ⟨cc, ce, ct⟩ := core
  dsimp only at hput ⊢
  unfold putAndCheckStep
  rw [hput]
  have hfr := flushAndRecover_ok M { cont := c1, errSlot := ce, tickerArmed := false }
    (by simpa using hflush)
  simp only at hfr
  simp [hfull, hfr]

theorem putAndCheckStep_full_async {σ T E : Type} (M : ContainerModel σ T E)
    (core : CoreState σ E) (d : T) (c1 : σ) (hput : M.put core.cont d = (c1, none))
    (hfull : M.isFull c1 = true) :
    putAndCheckStep M false core d
      = some ({ core with cont := c1, tickerArmed := true },
              [Act.putCall d, Act.tickerStop, Act.spawnFlushWork, Act.tickerArm]) := by
  obtain ⟨cc, ce, ct⟩ := core
  dsimp only at hput ⊢
  unfold putAndCheckStep
  rw [hput]
  simp [hfull]

theorem tickStep_async {σ T E : Type} (M : ContainerModel σ T E) (core : CoreState σ E) :
    tickStep M false core
      = some ({ core with tickerArmed := true },
              [Act.tickerStop, Act.spawnFlushWork, Act.tickerArm]) := rfl

theorem tickStep_sync_ok {σ T E : Type} (M : ContainerModel σ T E) (core : CoreState σ E)
    (hflush : (M.flush core.cont).2 = none) :
    tickStep M true core
      = some ({ core with cont := (M.flush core.cont).1, tickerArmed := true },
              [Act.tickerStop, Act.flushCall, Act.tickerArm]) := by
  obtain ⟨cc, ce, ct⟩ := core
  dsimp only at hflush ⊢
  unfold tickStep
  have hfr := flushAndRecover_ok M { cont := cc, errSlot := ce, tickerArmed := false }
    (by simpa using hflush)
  simp only at hfr
  simp [hfr]

theorem tickStep_sync_err {σ T E : Type} (M : ContainerModel σ T E) (core : CoreState σ E)
    (c : σ) (e : E) (hf : M.flush core.cont = (c, some e)) (hslot : core.errSlot = []) :
    tickStep M true core
      = some ({ core with cont := M.reset c, errSlot := [e], tickerArmed := true },
              [Act.tickerStop, Act.flushCall, Act.errSend e, Act.resetCall, Act.tickerArm]) := by
  obtain ⟨cc, ce, ct⟩ := core
  dsimp only at hf hslot ⊢
  subst hslot
  unfold tickStep
  have hfr := flushAndRecover_err M { cont := cc, errSlot := [], tickerArmed := false } c e
    (by simpa using hf) rfl
  simp [hfr]

theorem tickStep_errSlot {σ T E : Type} {M : ContainerModel σ T E} {sync : Bool}
    {core k : CoreState σ E} {acts : List (Act T E)}
    (h : tickStep M sync core = some (k, acts)) :
    k.errSlot = core.errSlot ∨ k.errSlot.length = 1 := by
  unfold tickStep at h
  split at h
  · cases h
  · rename_i core2 acts2 hpart
    simp only [Option.some.injEq, Prod.mk.injEq] at h
    rw [← h.1]
    split at hpart
    · rcases flushAndRecover_errSlot hpart with h1 | h1
      · exact Or.inl (by simpa using h1)
      · exact Or.inr (by simpa using h1)
    · simp only [Option.some.injEq, Prod.mk.injEq] at hpart
      rw [← hpart.1]
      exact Or.inl rfl

theorem manualFlushStep_ok {σ T E : Type} (M : ContainerModel σ T E) (core : CoreState σ E)
    (async : Bool) (hflush : (M.flush core.cont).2 = none) :
    manualFlushStep M core async
      = some ({ core with cont := (M.flush core.cont).1 },
              [Act.flushCall] ++ if async then [] else [Act.doneSignal]) := by
  unfold manualFlushStep
  rw [flushAndRecover_ok M core hflush]

theorem manualFlushStep_err {σ T E : Type} (M : ContainerModel σ T E) (core : CoreState σ E)
    (async : Bool) (c : σ) (e : E) (hf : M.flush core.cont = (c, some e))
    (hslot : core.errSlot = []) :
    manualFlushStep M core async
      = some ({ core with cont := M.reset c, errSlot := [e] },
              [Act.flushCall, Act.errSend e, Act.resetCall]
                ++ if async then [] else [Act.doneSignal]) := by
  unfold manualFlushStep
  rw [flushAndRecover_err M core c e hf hslot]

theorem manualFlushStep_errSlot {σ T E : Type} {M : ContainerModel σ T E} {async : Bool}
    {core k : CoreState σ E} {acts : List (Act T E)}
    (h : manualFlushStep M core async = some (k, acts)) :
    k.errSlot = core.errSlot ∨ k.errSlot.length = 1 := by
  unfold manualFlushStep at h
  split at h
  · cases h
  · rename_i core1 acts1 hfr
    simp only [Option.some.injEq, Prod.mk.injEq] at h
    rw [← h.1]
    exact flushAndRecover_errSlot hfr

theorem runStepE_data {σ T E : Type} (M : ContainerModel σ T E) (sync : Bool)
    (s : LoopState σ E) (d : T) (hs : s.stopped = false) :
    runStepE M sync s (LoopEvent.data d)
      = (putAndCheckStep M sync s.core d).map (fun p => ({ s with core := p.1 }, p.2)) := by
  simp [runStepE, loopEnabled, hs]

theorem runStepE_tick {σ T E : Type} (M : ContainerModel σ T E) (sync : Bool)
    (s : LoopState σ E) (hs : s.stopped = false) (ha : s.core.tickerArmed = true) :
    runStepE M sync s (LoopEvent.tick (T := T))
      = (tickStep M sync s.core).map (fun p => ({ s with core := p.1 }, p.2)) := by
  simp [runStepE, loopEnabled, hs, ha]

theorem runStepE_flushReq {σ T E : Type} (M : ContainerModel σ T E) (sync : Bool)
    (s : LoopState σ E) (a : Bool) (hs : s.stopped = false) :
    runStepE M sync s (LoopEvent.flushReq (T := T) a)
      = (manualFlushStep M s.core a).map (fun p => ({ s with core := p.1 }, p.2)) := by
  simp [runStepE, loopEnabled, hs]

theorem facadeRun_closed (s : FacadeState) (hs : closedCheck s = true) (ops : List BufOp) :
    facadeRun s ops = (s, ops.map (fun _ => some GoError.errClosed)) := by
  induction ops with
  | nil => rfl
  | cons op rest ih =>
    have hstep : facadeStep s op = (s, some GoError.errClosed) := by
      cases op <;> simp [facadeStep, hs]
    simp [facadeRun, hstep, ih]

theorem runStepE_stopped {σ T E : Type} (M : ContainerModel σ T E) (sync : Bool)
    (s : LoopState σ E) (ev : LoopEvent T) (hs : s.stopped = true) :
    runStepE M sync s ev = none := by
  cases ev <;> simp [runStepE, loopEnabled, hs]

theorem runStepE_tick_unarmed {σ T E : Type} (M : ContainerModel σ T E) (sync : Bool)
    (s : LoopState σ E) (ha : s.core.tickerArmed = false) :
    runStepE M sync s (LoopEvent.tick (T := T)) = none := by
  simp [runStepE, loopEnabled, ha]

theorem runStepE_ctxDone {σ T E : Type} (M : ContainerModel σ T E) (sync : Bool)
    (s : LoopState σ E) (hs : s.stopped = false) :
    runStepE M sync s (LoopEvent.ctxDone (T := T)) = some ({ s with stopped := true }, []) := by
  simp [runStepE, loopEnabled, hs]

theorem runStepE_errSlot {σ T E : Type} {M : ContainerModel σ T E} {sync : Bool}
    {s s2 : LoopState σ E} {ev : LoopEvent T} {acts : List (Act T E)}
    (h : runStepE M sync s ev = some (s2, acts)) (hlen : s.core.errSlot.length ≤ 1) :
    s2.core.errSlot.length ≤ 1 := by
  rcases hstop : s.stopped with _ | _
  · cases ev with
    | ctxDone =>
      rw [runStepE_ctxDone M sync s hstop] at h
      simp only [Option.some.injEq, Prod.mk.injEq] at h
      rw [← h.1]
      exact hlen
    | data d =>
      rw [runStepE_data M sync s d hstop, Option.map_eq_some'] at h
      obtain ⟨⟨k, a⟩, hk, hks⟩ := h
      injection hks with hks1 hks2
      rw [← hks1]
      dsimp only
      rcases putAndCheckStep_errSlot hk with h1 | h1
      · rw [h1]
        exact hlen
      · omega
    | tick =>
      rcases harm : s.core.tickerArmed with _ | _
      · rw [runStepE_tick_unarmed M sync s harm] at h
        cases h
      · rw [runStepE_tick M sync s hstop harm, Option.map_eq_some'] at h
        obtain ⟨⟨k, a⟩, hk, hks⟩ := h
        injection hks with hks1 hks2
        rw [← hks1]
        dsimp only
        rcases tickStep_errSlot hk with h1 | h1
        · rw [h1]
          exact hlen
        · omega
    | flushReq a =>
      rw [runStepE_flushReq M sync s a hstop, Option.map_eq_some'] at h
      obtain ⟨⟨k, b⟩, hk, hks⟩ := h
      injection hks with hks1 hks2
      rw [← hks1]
      dsimp only
      rcases manualFlushStep_errSlot hk with h1 | h1
      · rw [h1]
        exact hlen
      · omega
  · rw [runStepE_stopped M sync s ev hstop] at h
    cases h

theorem runStepE_errFree_progress {σ T E : Type} (M : ContainerModel σ T E) (sync : Bool)
    (s : LoopState σ E) (ev : LoopEvent T)
    (hput : ∀ c x, (M.put c x).2 = none) (hflush : ∀ c, (M.flush c).2 = none)
    (hen : loopEnabled s ev = true) : runStepE M sync s ev ≠ none := by
  have hstop : s.stopped = false := by
    cases ev <;> simp only [loopEnabled, Bool.and_eq_true, Bool.not_eq_true'] at hen <;>
      first
      | exact hen
      | exact hen.1
  cases ev with
  | ctxDone => rw [runStepE_ctxDone M sync s hstop]; simp
  | data d =>
    rw [runStepE_data M sync s d hstop]
    rcases hp : M.put s.core.cont d with ⟨c1, e?⟩
    have he := hput s.core.cont d
    rw [hp] at he
    dsimp only at he
    subst he
    rcases hf : M.isFull c1 with _ | _
    · rw [putAndCheckStep_ok M sync s.core d c1 hp hf]
      simp
    · rcases sync with _ | _
      · rw [putAndCheckStep_full_async M s.core d c1 hp hf]
        simp
      · rw [putAndCheckStep_full_sync_ok M s.core d c1 hp hf (hflush c1)]
        simp
  | tick =>
    have harm : s.core.tickerArmed = true := by
      simp only [loopEnabled, Bool.and_eq_true] at hen
      exact hen.2
    rw [runStepE_tick M sync s hstop harm]
    rcases sync with _ | _
    · rw [tickStep_async M s.core]
      simp
    · rw [tickStep_sync_ok M s.core (hflush _)]
      simp
  | flushReq a =>
    rw [runStepE_flushReq M sync s a hstop]
    rw [manualFlushStep_ok M s.core a (hflush _)]
    simp

theorem runTraceLog_fifo {σ T E : Type} (M : ContainerModel σ T E) (sync : Bool)
    (hput : ∀ c x, (M.put c x).2 = none) (hfull : ∀ c, M.isFull c = false)
    (hflush : ∀ c, (M.flush c).2 = none) :
    ∀ (ds : List T) (s : LoopState σ E), s.stopped = false →
      runTraceLog M sync s (ds.map LoopEvent.data ++ [LoopEvent.flushReq false])
        = some ({ s with core := { s.core with cont := (M.flush (foldPuts M s.core.cont ds)).1 } },
                ds.map (fun d => (LoopEvent.data d, [Act.putCall d]))
                  ++ [(LoopEvent.flushReq false, [Act.flushCall, Act.doneSignal])]) := by
  intro ds
  induction ds with
  | nil =>
    intro s hs
    have hm := manualFlushStep_ok M s.core false (hflush _)
    simp [runTraceLog, runStepE_flushReq M sync s false hs, hm, foldPuts]
  | cons d rest ih =>
    intro s hs
    rcases hp : M.put s.core.cont d with ⟨c1, e?⟩
    have he := hput s.core.cont d
    rw [hp] at he
    dsimp only at he
    subst he
    have hstep := putAndCheckStep_ok M sync s.core d c1 hp (hfull c1)
    have ihs := ih { s with core := { s.core with cont := c1 } } (by simpa using hs)
    simp [runTraceLog, runStepE_data M sync s d hs, hstep, ihs, foldPuts, hp]

theorem cleanupExec_errFree {σ T E : Type} (M : ContainerModel σ T E) (sync : Bool)
    (hput : ∀ c x, (M.put c x).2 = none) (hfull : ∀ c, M.isFull c = false) :
    ∀ (items : List T) (core : CoreState σ E),
      cleanupExec M sync core items
        = some ({ core with cont := (M.flush (foldPuts M core.cont items)).1 },
                items.map Act.putCall ++ [Act.flushCall]) := by
  intro items
  induction items with
  | nil =>
    intro core
    simp [cleanupExec, foldPuts]
  | cons d rest ih =>
    intro core
    rcases hp : M.put core.cont d with ⟨c1, e?⟩
    have he := hput core.cont d
    rw [hp] at he
    dsimp only at he
    subst he
    have hstep := putAndCheckStep_ok M sync core d c1 hp (hfull c1)
    simp [cleanupExec, hstep, ih, foldPuts, hp]

/-- Claim C1 (refuted; code bug).  Shutdown does NOT always drain fully:
with 8 items Put before Close into a sync ArrayContainer of capacity 10,
there is a legal interleaving (run's select receives item 1 after
cancellation, since Go select chooses arbitrarily among ready cases,
while cleanup drains the rest and final-flushes) in which, at the moment
the cleanup goroutine reaches its terminated state, only items 2..8 have
been flushed to the sink, item 1 has not been passed to Container.Put
(the run goroutine still holds it), and after run's pending putAndCheck
executes, item 1 sits in the container forever, never reaching the
sink. -/
theorem close_drain_race_loses_item :
    (sysExec arr10 false 10 (initSys arrInit false) c1LabelsA).map
        (fun s => (s.cleanPc, s.runPc, s.core.cont.sink, s.core.cont.array))
      = some (CleanPC.terminated, RunPC.handle 1, [[2, 3, 4, 5, 6, 7, 8]], [])
  ∧ (sysExec arr10 false 10 (initSys arrInit false) (c1LabelsA ++ [SysLabel.runPutStep])).map
        (fun s => (s.cleanPc, s.core.cont.sink, s.core.cont.array))
      = some (CleanPC.terminated, [[2, 3, 4, 5, 6, 7, 8]], [1]) := ⟨rfl, rfl⟩

/-- Claim C9 (refuted; code bug).  The event loop is NOT the only code
path that calls into the Container: cleanup runs as a separate
goroutine, and there is a legal interleaving in which the run goroutine
performs a Container.Put after the cleanup goroutine has already
performed the final Container.Flush and terminated — the two logical
operations interleave with no synchronization between them. -/
theorem container_accessed_by_two_goroutines :
    (sysExec arr10 false 10 (initSys arrInit false) c9Labels).map
        (fun s => (s.log, s.cleanPc))
      = some ([(ThreadTag.cleanT, Act.putCall 2), (ThreadTag.cleanT, Act.flushCall),
               (ThreadTag.runT, Act.putCall 1)], CleanPC.terminated) := rfl

/-- Claim C5, counterexample.  A synchronous Flush issued after a Put
has completed can be serviced by the loop before the enqueued item is
delivered: the select picks the flush-signal channel while item 1 is
still in the data channel, so the flush call (on an empty container) and
the done signal — i.e. the completion of the Flush(false) call — both
precede Container.Put of item 1. -/
theorem sync_flush_completes_before_puts :
    (sysExec arr10 false 10 (initSys arrInit false) c5Labels).map
        (fun s => (s.log, s.core.cont.sink, s.core.cont.array))
      = some ([(ThreadTag.runT, Act.acceptReq false), (ThreadTag.runT, Act.flushCall),
               (ThreadTag.runT, Act.doneSignal), (ThreadTag.runT, Act.putCall 1)],
              [[]], [1]) := rfl

/-- Claim C5, amended part (proved).  Items are delivered to the
Container in the order the loop observes them on the FIFO data channel,
and a manual synchronous flush observed by the loop strictly after N
data events flushes a container state that has incorporated all N items
in order, signalling done only afterwards. -/
theorem fifo_delivery_and_flush_barrier {σ T E : Type} (M : ContainerModel σ T E) (sync : Bool)
    (hput : ∀ c x, (M.put c x).2 = none) (hfull : ∀ c, M.isFull c = false)
    (hflush : ∀ c, (M.flush c).2 = none) :
    ∀ (ds : List T) (s : LoopState σ E), s.stopped = false →
      runTraceLog M sync s (ds.map LoopEvent.data ++ [LoopEvent.flushReq false])
        = some ({ s with core := { s.core with cont := (M.flush (foldPuts M s.core.cont ds)).1 } },
                ds.map (fun d => (LoopEvent.data d, [Act.putCall d]))
                  ++ [(LoopEvent.flushReq false, [Act.flushCall, Act.doneSignal])]) := by
  intro ds
  induction ds with
  | nil =>
    intro s hs
    have hm := manualFlushStep_ok M s.core false (hflush _)
    simp [runTraceLog, runStepE_flushReq M sync s false hs, hm, foldPuts]
  | cons d rest ih =>
    intro s hs
    rcases hp : M.put s.core.cont d with ⟨c1, e?⟩
    have he := hput s.core.cont d
    rw [hp] at he
    dsimp only at he
    subst he
    have hstep := putAndCheckStep_ok M sync s.core d c1 hp (hfull c1)
    have ihs := ih { s with core := { s.core with cont := c1 } } (by simpa using hs)
    simp [runTraceLog, runStepE_data M sync s d hs, hstep, ihs, foldPuts, hp]

/-- Witness for fifo_delivery_and_flush_barrier at a concrete
container and item list. -/
theorem fifo_delivery_and_flush_barrier_witness :
    runTraceLog contNoFull true (initLoopState ([] : List Nat) false)
        [LoopEvent.data 1, LoopEvent.data 2, LoopEvent.flushReq false]
      = some ({ core := { cont := [], errSlot := [], tickerArmed := true }, stopped := false },
              [(LoopEvent.data 1, [Act.putCall 1]), (LoopEvent.data 2, [Act.putCall 2]),
               (LoopEvent.flushReq false, [Act.flushCall, Act.doneSignal])]) :=
  fifo_delivery_and_flush_barrier contNoFull true (fun _ _ => rfl) (fun _ => rfl) (fun _ => rfl)
    [1, 2] (initLoopState [] false) rfl

/-- Claim C6 (confirmed).  A synchronous Flush caller is unblocked (done
signal) only after the loop's Container.Flush invocation for that
request has returned — and, on error, only after the error send and the
Reset — never before; an asynchronous Flush request produces no done
signal (its caller returns at request acceptance), and concretely the
request can be accepted (caller unblocked) while the flush has not yet
executed. -/
theorem sync_flush_done_discipline {σ T E : Type} (M : ContainerModel σ T E) (sync : Bool) :
    (∀ s : LoopState σ E, s.stopped = false → (M.flush s.core.cont).2 = none →
       (runStepE M sync s (LoopEvent.flushReq (T := T) false)).map (fun p => p.2)
         = some [Act.flushCall, Act.doneSignal])
  ∧ (∀ (s : LoopState σ E) (c : σ) (e : E), s.stopped = false → s.core.errSlot = [] →
       M.flush s.core.cont = (c, some e) →
       (runStepE M sync s (LoopEvent.flushReq (T := T) false)).map (fun p => p.2)
         = some [Act.flushCall, Act.errSend e, Act.resetCall, Act.doneSignal])
  ∧ (∀ s : LoopState σ E, s.stopped = false → (M.flush s.core.cont).2 = none →
       (runStepE M sync s (LoopEvent.flushReq (T := T) true)).map (fun p => p.2)
         = some [Act.flushCall])
  ∧ (sysExec arr10 false 10 (initSys arrInit false)
        [SysLabel.envFlushReq true, SysLabel.runSelFlush]).map (fun s => (s.log, s.runPc))
      = some ([(ThreadTag.runT, Act.acceptReq true)], RunPC.mflush true) := by
  refine ⟨?_, ?_, ?_, rfl⟩
  · intro s hs hf
    rw [runStepE_flushReq M sync s false hs, manualFlushStep_ok M s.core false hf]
    simp
  · intro s c e hs hslot hf
    rw [runStepE_flushReq M sync s false hs, manualFlushStep_err M s.core false c e hf hslot]
    simp
  · intro s hs hf
    rw [runStepE_flushReq M sync s true hs, manualFlushStep_ok M s.core true hf]
    simp

/-- Witness for sync_flush_done_discipline at a concrete container. -/
theorem sync_flush_done_discipline_witness :
    (runStepE contNoFull true (initLoopState ([] : List Nat) false)
        (LoopEvent.flushReq false)).map (fun p => p.2)
      = some [Act.flushCall, Act.doneSignal] :=
  (sync_flush_done_discipline contNoFull true).1 (initLoopState [] false) rfl rfl

/-- Claim C2, counterexample.  A Container.Put error is handled by
sending the error on the error channel WITHOUT calling Reset (the
resetCall action does not occur), contradicting the claim that every
Container error triggers both the send and a Reset. -/
theorem put_error_without_reset :
    (runStepE contPutErr true (initLoopState () false) (LoopEvent.data 0)).map
        (fun p => (p.2, decide (Act.resetCall ∈ p.2), p.1.stopped))
      = some ([Act.putCall 0, Act.errSend 7], false, false) := rfl

/-- Claim C2, amended part (proved).  The loop's actual recovery policy:
a Flush error in the manual-flush, timer, or capacity branch sends the
error and then Resets the container and the loop keeps running; a Put
error only sends the error (no Reset); the final flush during draining
neither reports nor resets; in all these cases the loop does not stop
because of the container error. -/
theorem loop_error_recovery_policy {σ T E : Type} (M : ContainerModel σ T E) :
    (∀ (s : LoopState σ E) (a : Bool) (c : σ) (e : E),
       s.stopped = false → s.core.errSlot = [] → M.flush s.core.cont = (c, some e) →
       (runStepE M true s (LoopEvent.flushReq (T := T) a)).map
           (fun p => (p.1.stopped, p.1.core.errSlot, p.1.core.cont, p.2))
         = some (false, [e], M.reset c,
                 [Act.flushCall, Act.errSend e, Act.resetCall]
                   ++ if a then [] else [Act.doneSignal]))
  ∧ (∀ (s : LoopState σ E) (c : σ) (e : E),
       s.stopped = false → s.core.tickerArmed = true → s.core.errSlot = [] →
       M.flush s.core.cont = (c, some e) →
       (runStepE M true s (LoopEvent.tick (T := T))).map
           (fun p => (p.1.stopped, p.1.core.errSlot, p.1.core.cont, p.1.core.tickerArmed, p.2))
         = some (false, [e], M.reset c, true,
                 [Act.tickerStop, Act.flushCall, Act.errSend e, Act.resetCall, Act.tickerArm]))
  ∧ (∀ (s : LoopState σ E) (d : T) (c1 c2 : σ) (e : E),
       s.stopped = false → s.core.errSlot = [] →
       M.put s.core.cont d = (c1, none) → M.isFull c1 = true → M.flush c1 = (c2, some e) →
       (runStepE M true s (LoopEvent.data d)).map
           (fun p => (p.1.stopped, p.1.core.errSlot, p.1.core.cont, p.2))
         = some (false, [e], M.reset c2,
                 [Act.putCall d, Act.tickerStop, Act.flushCall, Act.errSend e,
                  Act.resetCall, Act.tickerArm]))
  ∧ (∀ (s : LoopState σ E) (d : T) (c1 : σ) (e : E),
       s.stopped = false → s.core.errSlot = [] →
       M.put s.core.cont d = (c1, some e) → M.isFull c1 = false →
       (runStepE M true s (LoopEvent.data d)).map
           (fun p => (p.1.stopped, p.1.core.errSlot, p.1.core.cont, p.2))
         = some (false, [e], c1, [Act.putCall d, Act.errSend e]))
  ∧ (∀ (core : CoreState σ E) (c : σ) (e : E), M.flush core.cont = (c, some e) →
       cleanupExec M true core ([] : List T)
         = some ({ core with cont := c }, [Act.flushCall])) := by
  refine ⟨?_, ?_, ?_, ?_, ?_⟩
  · intro s a c e hs hslot hf
    rw [runStepE_flushReq M true s a hs, manualFlushStep_err M s.core a c e hf hslot]
    simp [hs]
  · intro s c e hs harm hslot hf
    rw [runStepE_tick M true s hs harm, tickStep_sync_err M s.core c e hf hslot]
    simp [hs]
  · intro s d c1 c2 e hs hslot hput hfull hflush
    rw [runStepE_data M true s d hs,
        putAndCheckStep_full_sync_err M s.core d c1 c2 e hput hslot hfull hflush]
    simp [hs]
  · intro s d c1 e hs hslot hput hfull
    rw [runStepE_data M true s d hs, putAndCheckStep_puterr M true s.core d c1 e hput hslot hfull]
    simp [hs]
  · intro core c e hf
    simp [cleanupExec, hf]

/-- Witness for loop_error_recovery_policy: the put-error branch and the
cleanup final-flush branch at concrete containers. -/
theorem loop_error_recovery_policy_witness :
    (runStepE contPutErr true (initLoopState () false) (LoopEvent.data 3)).map
        (fun p => (p.1.stopped, p.1.core.errSlot, p.1.core.cont, p.2))
      = some (false, [7], (), [Act.putCall 3, Act.errSend 7])
  ∧ cleanupExec contFlushErr true { cont := (), errSlot := [], tickerArmed := true } ([] : List Nat)
      = some ({ cont := (), errSlot := [], tickerArmed := true }, [Act.flushCall]) :=
  ⟨(loop_error_recovery_policy contPutErr).2.2.2.1 (initLoopState () false) 3 () 7 rfl rfl rfl rfl,
   (loop_error_recovery_policy contFlushErr).2.2.2.2
     { cont := (), errSlot := [], tickerArmed := true } () 5 rfl⟩

/-- Claim C3 (refuted; code bug).  With DisableAutoFlush = true the
ticker starts unarmed and no tick can fire from the initial state — but
a capacity-triggered flush unconditionally re-arms the ticker
(putAndCheck ends with autoFlushTicker.Reset regardless of the flag), so
after one capacity flush a timer tick becomes observable and performs a
timer-triggered container flush. -/
theorem disable_auto_flush_ticker_rearm :
    (runTraceLog arr1 true (initLoopState arrInit true) [LoopEvent.data 0, LoopEvent.tick]).map
        (fun p => (p.1.core.tickerArmed, p.1.core.cont.sink, p.2))
      = some (true, [[0], []],
              [(LoopEvent.data 0, [Act.putCall 0, Act.tickerStop, Act.flushCall, Act.tickerArm]),
               (LoopEvent.tick, [Act.tickerStop, Act.flushCall, Act.tickerArm])])
  ∧ runTraceLog arr1 true (initLoopState arrInit true) [LoopEvent.tick] = none := ⟨rfl, rfl⟩

/-- Claim C4 (confirmed).  From a non-closed state, Close succeeds and
cancels the lifecycle context; from then on every Put, Flush and Close —
for arbitrarily many repeated calls — returns ErrClosed and leaves the
state unchanged, so exactly one Close per instance ever succeeds. -/
theorem close_gate_idempotent (s : FacadeState) (hs : closedCheck s = false) (ops : List BufOp) :
    facadeStep s BufOp.closeOp = ({ s with selfCancelled := true }, none)
    ∧ facadeRun { s with selfCancelled := true } ops
        = ({ s with selfCancelled := true }, ops.map (fun _ => some GoError.errClosed)) := by
  constructor
  · simp [facadeStep, hs]
  · exact facadeRun_closed _ (by simp [closedCheck, ctxDoneF]) ops

/-- Witness for close_gate_idempotent. -/
theorem close_gate_idempotent_witness :
    facadeStep { parentCancelled := false, selfCancelled := false } BufOp.closeOp
        = ({ parentCancelled := false, selfCancelled := true }, none)
    ∧ facadeRun { parentCancelled := false, selfCancelled := true }
          [BufOp.putOp, BufOp.flushOp false, BufOp.closeOp, BufOp.closeOp]
        = ({ parentCancelled := false, selfCancelled := true },
           [some GoError.errClosed, some GoError.errClosed, some GoError.errClosed,
            some GoError.errClosed]) :=
  close_gate_idempotent { parentCancelled := false, selfCancelled := false } rfl
    [BufOp.putOp, BufOp.flushOp false, BufOp.closeOp, BufOp.closeOp]

/-- Claim C7, counterexample.  With an application that never reads the
error channel, the loop does NOT always make progress: after one
container error fills the single slot, the send for a second error
blocks the loop forever. -/
theorem second_error_send_blocks_loop :
    runTraceLog contPutErr true (initLoopState () false) [LoopEvent.data 0, LoopEvent.data 1]
      = none := rfl

/-- Claim C7, amended part (proved).  The error channel is created with
capacity exactly 1; it never holds more than one undelivered error; and
any step that needs no error report always makes progress (the loop
blocks only when it must report an error while one is already pending
unread). -/
theorem error_channel_discipline :
    (∀ (u : String) (c : GoConfig) (b : BufferInit), newBuffer u c = some b → b.errChanCap = 1)
  ∧ (∀ {σ T E : Type} (M : ContainerModel σ T E) (sync : Bool) (s s2 : LoopState σ E)
       (ev : LoopEvent T) (acts : List (Act T E)),
       runStepE M sync s ev = some (s2, acts) → s.core.errSlot.length ≤ 1 →
       s2.core.errSlot.length ≤ 1)
  ∧ (∀ {σ T E : Type} (M : ContainerModel σ T E) (sync : Bool) (s : LoopState σ E)
       (ev : LoopEvent T), (∀ c x, (M.put c x).2 = none) → (∀ c, (M.flush c).2 = none) →
       loopEnabled s ev = true → runStepE M sync s ev ≠ none) := by
  refine ⟨?_, ?_, ?_⟩
  · intro u c b h
    unfold newBuffer at h
    split at h
    · cases h
    · injection h with h2
      rw [← h2]
  · intro σ T E M sync s s2 ev acts h hlen
    exact runStepE_errSlot h hlen
  · intro σ T E M sync s ev hput hflush hen
    exact runStepE_errFree_progress M sync s ev hput hflush hen

/-- Witness for error_channel_discipline. -/
theorem error_channel_discipline_witness :
    ({ config := { id := "u", chanBufSize := 100, disableAutoFlush := false,
                   flushInterval := 15000000000, syncAutoFlush := false, hasLogger := true,
                   logLevel := 0 }, dataChanCap := 100, errChanCap := 1 } : BufferInit).errChanCap
        = 1
  ∧ runStepE contNoFull true (initLoopState ([] : List Nat) false) (LoopEvent.data 0) ≠ none :=
  ⟨error_channel_discipline.1 "u"
     { id := "", chanBufSize := 0, disableAutoFlush := false, flushInterval := 0,
       syncAutoFlush := false, hasLogger := false, logLevel := 0 }
     { config := { id := "u", chanBufSize := 100, disableAutoFlush := false,
                   flushInterval := 15000000000, syncAutoFlush := false, hasLogger := true,
                   logLevel := 0 }, dataChanCap := 100, errChanCap := 1 } (by decide),
   error_channel_discipline.2.2 contNoFull true (initLoopState [] false) (LoopEvent.data 0)
     (fun _ _ => rfl) (fun _ => rfl) rfl⟩

/-- Claim C8 (refuted; code bug).  Validate defaults the ID, ChanBufSize
and FlushInterval as claimed and rejects LogLevel 6, but it converts
LogLevel to an int8 BEFORE the range check, so LogLevel 255 wraps to -1
and validation succeeds even though 255 lies outside [-1, 5] — despite
the code's own error message demanding that range. -/
theorem validate_defaults_and_loglevel_wrap :
    validateConfig "fresh-uuid"
        { id := "", chanBufSize := 0, disableAutoFlush := false, flushInterval := 0,
          syncAutoFlush := false, hasLogger := false, logLevel := 0 }
      = some { id := "fresh-uuid", chanBufSize := 100, disableAutoFlush := false,
               flushInterval := 15000000000, syncAutoFlush := false, hasLogger := true,
               logLevel := 0 }
  ∧ newBuffer "u" { id := "x", chanBufSize := 1, disableAutoFlush := false, flushInterval := 1,
                    syncAutoFlush := false, hasLogger := false, logLevel := 6 } = none
  ∧ (validateConfig "u" { id := "x", chanBufSize := 1, disableAutoFlush := false,
                          flushInterval := 1, syncAutoFlush := false, hasLogger := false,
                          logLevel := 255 }).isSome = true
  ∧ int8cast 255 = -1 := by
  refine ⟨?_, ?_, ?_, ?_⟩ <;> decide

/-- Claim C10 (confirmed).  Cancelling the parent context makes the
derived lifecycle context done exactly as Close does: every subsequent
Put, Flush and Close returns ErrClosed (in particular no Close ever
succeeds on that instance), and the drain-and-final-flush cleanup runs
to completion on whatever the data channel still holds, putting each
item and attempting one final flush. -/
theorem parent_cancel_closes_and_drains {σ T E : Type} (M : ContainerModel σ T E) (sync : Bool)
    (hput : ∀ c x, (M.put c x).2 = none) (hfull : ∀ c, M.isFull c = false)
    (s : FacadeState) (hp : s.parentCancelled = true) (ops : List BufOp)
    (core : CoreState σ E) (items : List T) :
    facadeRun s ops = (s, ops.map (fun _ => some GoError.errClosed))
    ∧ cleanupExec M sync core items
        = some ({ core with cont := (M.flush (foldPuts M core.cont items)).1 },
                items.map Act.putCall ++ [Act.flushCall]) := by
  constructor
  · exact facadeRun_closed s (by simp [closedCheck, ctxDoneF, hp]) ops
  · exact cleanupExec_errFree M sync hput hfull items core

/-- Witness for parent_cancel_closes_and_drains. -/
theorem parent_cancel_closes_and_drains_witness :
    facadeRun { parentCancelled := true, selfCancelled := false }
        [BufOp.putOp, BufOp.flushOp false, BufOp.closeOp]
      = ({ parentCancelled := true, selfCancelled := false },
         [some GoError.errClosed, some GoError.errClosed, some GoError.errClosed])
    ∧ cleanupExec contNoFull true { cont := [], errSlot := [], tickerArmed := true } [1, 2]
        = some ({ cont := [], errSlot := [], tickerArmed := true },
                [Act.putCall 1, Act.putCall 2, Act.flushCall]) :=
  parent_cancel_closes_and_drains contNoFull true (fun _ _ => rfl) (fun _ => rfl)
    { parentCancelled := true, selfCancelled := false } rfl
    [BufOp.putOp, BufOp.flushOp false, BufOp.closeOp]
    { cont := [], errSlot := [], tickerArmed := true } [1, 2]

end GoBuffer
